import Mathlib

/-!
# Verification of the pottery-agent repository

A shallow embedding, in Lean 4, of the pottery knowledge-search tool and the
A2A (agent-to-agent) JSON-RPC route handlers of the repository, together with
theorems settling the specification claims about them.

Conventions of the embedding:
* JavaScript strings are Lean `String`s; `toLowerCase` is `Char.toLower`
  mapped over the characters, `includes` is a substring test on character
  lists, and `split(/\s+/)` splits at every whitespace character.
* Similarity scores (JavaScript floating-point numbers) are modelled as
  rationals; the literal `0.6` is `3/5`.
* Calls to external services (OpenAI embeddings, the Pinecone index, the
  agent's LLM) are oracles passed in as function arguments; a call that can
  throw is an `Except`.
* JavaScript truthiness on optional strings: `none` and the empty string are
  falsy.
-/

/-! ## String utilities (JavaScript semantics) -/

/-- `s.toLowerCase()` as a character list: the characters of `s`, lowercased. -/
def lowerData (s : String) : List Char :=
  s.data.map Char.toLower

/-- Is `needle` a prefix of `hay`? (auxiliary for the substring test). -/
def isPrefList : List Char → List Char → Bool
  | [], _ => true
  | _ :: _, [] => false
  | a :: as, b :: bs => a == b && isPrefList as bs

/-- JavaScript `hay.includes(needle)`: does `needle` occur contiguously in `hay`? -/
def hasSub (hay needle : List Char) : Bool :=
  match hay with
  | [] => needle.isEmpty
  | _ :: t => isPrefList needle hay || hasSub t needle

/-- Worker for whitespace splitting: `cur` holds the reversed characters of the
word being accumulated. Every whitespace character ends the current word. -/
def splitWsGo (cur : List Char) : List Char → List String
  | [] => [String.mk cur.reverse]
  | c :: cs =>
    if c.isWhitespace then String.mk cur.reverse :: splitWsGo [] cs
    else splitWsGo (c :: cur) cs

/-- `query.toLowerCase().split(/\s+/)`: the lowercased query cut at whitespace.
(Where the regex collapses runs of whitespace, this keeps empty pieces; they
have length 0 and are ignored by every consumer, which only looks at words of
length above 3.) -/
def queryWords (query : String) : List String :=
  splitWsGo [] (lowerData query)

/-! ## The mock knowledge base (`pottery-tool.ts`, `potteryKnowledge`) -/

/-- Insert `x` into `ys` before the first element `y` with `le x y`
(auxiliary for the stable sort). -/
def insertLe (le : α → α → Bool) (x : α) : List α → List α
  | [] => [x]
  | y :: ys => if le x y then x :: y :: ys else y :: insertLe le x ys

/-- Stable insertion sort: models JavaScript `Array.prototype.sort`, which is
stable and orders by the comparator. An element is placed before the first
already-sorted element it compares `le` to, so elements the comparator ties
keep their original relative order. -/
def stableSort (le : α → α → Bool) : List α → List α
  | [] => []
  | x :: xs => insertLe le x (stableSort le xs)

structure KnowledgeItem where
  topic : String
  content : String
deriving Repr, DecidableEq

/-- The eight hard-coded snippets of `potteryKnowledge`. -/
def potteryKnowledge : List KnowledgeItem := [
  { topic := "Clay Types",
    content := "There are three main types of clay used in pottery: Earthenware (fires at low temperatures 1000-1150°C, porous), Stoneware (fires at 1200-1300°C, non-porous, durable), and Porcelain (fires at 1200-1400°C, white, translucent, very strong)." },
  { topic := "Wheel Throwing",
    content := "Wheel throwing is a pottery technique where clay is shaped on a potter's wheel. Key steps include: centering the clay, opening the form, pulling up the walls, and shaping. It requires practice to master hand coordination and maintaining consistent pressure." },
  { topic := "Glazing",
    content := "Glazing is the process of applying a glassy coating to pottery. Glazes provide color, texture, and make pieces waterproof. Glazes are applied after bisque firing and before the final glaze firing. Common application methods include dipping, pouring, brushing, and spraying." },
  { topic := "Firing Process",
    content := "Pottery goes through two main firings: Bisque firing (first firing at 900-1000°C to harden the clay) and Glaze firing (second firing at higher temperatures to melt the glaze). Kilns can be electric, gas, or wood-fired, each producing different effects." },
  { topic := "Hand Building",
    content := "Hand-building techniques include: Pinch pots (shaping clay with fingers), Coil building (rolling clay into ropes and stacking them), and Slab building (rolling clay flat and joining pieces). These techniques predate the potter's wheel and are still widely used." },
  { topic := "Clay Preparation",
    content := "Clay preparation involves wedging (kneading clay to remove air bubbles and create uniform consistency). Proper wedging prevents cracking and explosions in the kiln. Clay should be stored in airtight containers to maintain moisture." },
  { topic := "Common Issues",
    content := "Common pottery problems include: Cracking (often from drying too quickly or uneven thickness), Warping (from uneven drying or clay memory), S-cracks (from improper wedging), and Glaze defects like crazing (fine cracks in glaze from thermal expansion mismatch) or crawling (glaze pulling away from clay)." },
  { topic := "Tools",
    content := "Essential pottery tools include: Potter's wheel, kiln, wire clay cutter, needle tool, ribbon/loop tools, sponges, wooden modeling tools, calipers, bat system, and trimming tools. Beginners can start with basic hand tools before investing in a wheel." }
]

/-! ## `searchMockKnowledge` (`pottery-tool.ts` lines 169-204) -/

structure ScoredItem extends KnowledgeItem where
  score : Nat
deriving Repr, DecidableEq

/-- The `queryWords.forEach` relevance loop: for each query word longer than
3 characters, add 3 if the lowercased topic contains it and 1 if the
lowercased content contains it; accumulated left to right. -/
def itemScoreWords (topicL contentL : List Char) (ws : List String) : Nat :=
  ws.foldl (fun score w =>
    if w.length > 3 then
      score + (if hasSub topicL w.data then 3 else 0)
            + (if hasSub contentL w.data then 1 else 0)
    else score) 0

/-- The fixed no-result message of the mock search. -/
def mockNoResultsMsg : String :=
  "No relevant information found in the knowledge base for this query."

/-- The body of `searchMockKnowledge`, factored over the already-computed list
of lowercased query words: score each snippet, keep positive scores, sort by
descending score (stably, as `Array.prototype.sort`), truncate to
`maxResults`, and format. -/
def searchMockWords (qwords : List String) (maxResults : Nat) : String :=
  let results :=
    (((potteryKnowledge.map (fun item =>
        ({ topic := item.topic, content := item.content,
           score := itemScoreWords (lowerData item.topic) (lowerData item.content) qwords }
         : ScoredItem)))
      |>.filter (fun item => 0 < item.score))
      |> stableSort (fun a b => b.score ≤ a.score))
      |>.take maxResults
  if results.isEmpty then
    mockNoResultsMsg
  else
    String.intercalate "\n\n"
      (results.mapIdx (fun i item =>
        "[Result " ++ toString (i + 1) ++ "] " ++ item.topic ++ ":\n" ++ item.content))

/-- `searchMockKnowledge(query, maxResults)` from `pottery-tool.ts`. -/
def searchMockKnowledge (query : String) (maxResults : Nat) : String :=
  searchMockWords (queryWords query) maxResults

/-! ## Spec-side restatement of the mock search (for the refinement claim C2)

`searchMockKnowledgeSpec` is written from the specification's words: the score
of a snippet is the *sum*, over the whitespace-separated query words strictly
longer than three characters, of 3 per topic hit plus 1 per content hit
(the source instead accumulates with a `forEach` loop over all words). -/

/-- Score of one snippet per the spec's words. -/
def specScore (item : KnowledgeItem) (query : String) : Nat :=
  (((queryWords query).filter (fun w => w.length > 3)).map (fun w =>
      (if hasSub (lowerData item.topic) w.data then 3 else 0)
    + (if hasSub (lowerData item.content) w.data then 1 else 0))).sum

/-- The mock search as the spec words it. -/
def searchMockKnowledgeSpec (query : String) (maxResults : Nat) : String :=
  let scored := potteryKnowledge.map (fun it =>
    ({ topic := it.topic, content := it.content, score := specScore it query } : ScoredItem))
  let kept := scored.filter (fun it => 0 < it.score)
  let ranked := stableSort (fun a b => b.score ≤ a.score) kept
  let top := ranked.take maxResults
  if top.isEmpty then mockNoResultsMsg
  else
    String.intercalate "\n\n"
      (top.mapIdx (fun i it =>
        "[Result " ++ toString (i + 1) ++ "] " ++ it.topic ++ ":\n" ++ it.content))

/-! ## Scoring lemmas -/

/-- The gain a single query word contributes to a snippet's score. -/
def wordGain (topicL contentL : List Char) (w : String) : Nat :=
  if w.length > 3 then
      (if hasSub topicL w.data then 3 else 0)
    + (if hasSub contentL w.data then 1 else 0)
  else 0

theorem itemScoreWords_foldl_eq (topicL contentL : List Char) (ws : List String) :
    ∀ a : Nat,
      ws.foldl (fun score w =>
        if w.length > 3 then
          score + (if hasSub topicL w.data then 3 else 0)
                + (if hasSub contentL w.data then 1 else 0)
        else score) a
      = a + (ws.map (wordGain topicL contentL)).sum := by
  induction ws with
  | nil => intro a; simp
  | cons w ws ih =>
    intro a
    have hstep :
        (if w.length > 3 then
          a + (if hasSub topicL w.data then 3 else 0)
            + (if hasSub contentL w.data then 1 else 0)
        else a) = a + wordGain topicL contentL w := by
      by_cases hw : w.length > 3
      · simp [wordGain, hw, Nat.add_assoc]
      · simp [wordGain, hw]
    simp only [List.foldl_cons, List.map_cons, List.sum_cons, hstep, ih]
    omega

theorem itemScoreWords_eq_sum (topicL contentL : List Char) (ws : List String) :
    itemScoreWords topicL contentL ws = (ws.map (wordGain topicL contentL)).sum := by
  simpa using itemScoreWords_foldl_eq topicL contentL ws 0

theorem itemScoreWords_eq_specScore (it : KnowledgeItem) (query : String) :
    itemScoreWords (lowerData it.topic) (lowerData it.content) (queryWords query)
      = specScore it query := by
  rw [itemScoreWords_eq_sum, specScore]
  induction queryWords query with
  | nil => rfl
  | cons w ws ih =>
    by_cases hw : w.length > 3 <;>
      simp [List.filter_cons, hw, wordGain, ih]

theorem itemScoreWords_append (topicL contentL : List Char) (ws vs : List String) :
    itemScoreWords topicL contentL (ws ++ vs)
      = itemScoreWords topicL contentL ws + itemScoreWords topicL contentL vs := by
  simp [itemScoreWords_eq_sum]

theorem itemScoreWords_short (topicL contentL : List Char) (ws : List String)
    (h : ∀ w ∈ ws, w.length ≤ 3) :
    itemScoreWords topicL contentL ws = 0 := by
  rw [itemScoreWords_eq_sum]
  apply List.sum_eq_zero
  intro x hx
  obtain ⟨w, hw, rfl⟩ := List.mem_map.mp hx
  have := h w hw
  simp [wordGain]
  omega

/-! ## Splitting lemmas -/

theorem splitWsGo_append (xs : List Char) :
    ∀ (cur ys : List Char),
      splitWsGo cur (xs ++ ' ' :: ys) = splitWsGo cur xs ++ splitWsGo [] ys := by
  induction xs with
  | nil =>
    intro cur ys
    simp [splitWsGo]
  | cons c xs ih =>
    intro cur ys
    by_cases h : c.isWhitespace <;> simp [splitWsGo, h, ih]

theorem queryWords_append_space (q ext : String) :
    queryWords (q ++ " " ++ ext) = queryWords q ++ queryWords ext := by
  unfold queryWords
  have hdata : (q ++ " " ++ ext).data = (q.data ++ [' ']) ++ ext.data := rfl
  rw [show lowerData (q ++ " " ++ ext) = lowerData q ++ ' ' :: lowerData ext by
        simp [lowerData, hdata, List.map_append]]
  exact splitWsGo_append _ _ _

/-! ## Mock-search lemmas used by the claims -/

theorem searchMockWords_short (ws : List String) (m : Nat)
    (h : ∀ w ∈ ws, w.length ≤ 3) :
    searchMockWords ws m = mockNoResultsMsg := by
  unfold searchMockWords
  have hfil :
      (potteryKnowledge.map (fun item =>
        ({ topic := item.topic, content := item.content,
           score := itemScoreWords (lowerData item.topic) (lowerData item.content) ws }
         : ScoredItem))).filter (fun item => 0 < item.score) = [] := by
    apply List.filter_eq_nil_iff.mpr
    intro a ha
    obtain ⟨it, _, rfl⟩ := List.mem_map.mp ha
    simp [itemScoreWords_short _ _ _ h]
  simp [hfil, stableSort]

theorem searchMockWords_append_short (ws vs : List String) (m : Nat)
    (h : ∀ w ∈ vs, w.length ≤ 3) :
    searchMockWords (ws ++ vs) m = searchMockWords ws m := by
  unfold searchMockWords
  have hsc : ∀ it : KnowledgeItem,
      itemScoreWords (lowerData it.topic) (lowerData it.content) (ws ++ vs)
        = itemScoreWords (lowerData it.topic) (lowerData it.content) ws := by
    intro it
    rw [itemScoreWords_append, itemScoreWords_short _ _ _ h, Nat.add_zero]
  rw [List.map_congr_left (fun it _ => by rw [hsc it])]

/-- C2: the fallback knowledge base has exactly eight snippets, and for every
query and maxResults the mock search scores each snippet by adding, per query
word longer than three characters, 3 for a topic hit and 1 for a content hit,
keeps positive scores, sorts descending, truncates to maxResults, formats as
"[Result i] topic:\ncontent" joined by blank lines, and falls back to the
fixed no-result message — i.e. it equals the spec-worded pipeline. -/
theorem searchMockKnowledge_eq_spec :
    potteryKnowledge.length = 8
    ∧ ∀ (query : String) (maxResults : Nat),
        searchMockKnowledge query maxResults = searchMockKnowledgeSpec query maxResults := by
  refine ⟨rfl, ?_⟩
  intro q m
  unfold searchMockKnowledge searchMockWords searchMockKnowledgeSpec
  rw [List.map_congr_left (fun it _ => by rw [itemScoreWords_eq_specScore])]

/-- C8: query words of length three or less never contribute: a query all of
whose words are at most three characters long yields the fixed no-result
message, and appending only such words to any query leaves the result
unchanged. -/
theorem searchMockKnowledge_short_words :
    (∀ (query : String) (maxResults : Nat),
        (∀ w ∈ queryWords query, w.length ≤ 3) →
        searchMockKnowledge query maxResults = mockNoResultsMsg)
    ∧ (∀ (query ext : String) (maxResults : Nat),
        (∀ w ∈ queryWords ext, w.length ≤ 3) →
        searchMockKnowledge (query ++ " " ++ ext) maxResults
          = searchMockKnowledge query maxResults) := by
  constructor
  · intro q m h
    exact searchMockWords_short _ _ h
  · intro q ext m h
    unfold searchMockKnowledge
    rw [queryWords_append_space]
    exact searchMockWords_append_short _ _ _ h

set_option maxRecDepth 40000 in
theorem searchMockKnowledge_short_words_witness :
    ((∀ w ∈ queryWords "a bc de", w.length ≤ 3)
      ∧ searchMockKnowledge "a bc de" 3 = mockNoResultsMsg)
    ∧ ((∀ w ∈ queryWords "it no", w.length ≤ 3)
      ∧ searchMockKnowledge ("clay" ++ " " ++ "it no") 2 = searchMockKnowledge "clay" 2) :=
  ⟨⟨by decide, searchMockKnowledge_short_words.1 "a bc de" 3 (by decide)⟩,
   ⟨by decide, searchMockKnowledge_short_words.2 "clay" "it no" 2 (by decide)⟩⟩

/-- C9: the mock search is invariant under the letter case of the query: two
queries with the same lowercasing produce the same result. -/
theorem searchMockKnowledge_case_insensitive :
    ∀ (q₁ q₂ : String) (maxResults : Nat),
      lowerData q₁ = lowerData q₂ →
      searchMockKnowledge q₁ maxResults = searchMockKnowledge q₂ maxResults := by
  intro q₁ q₂ m h
  unfold searchMockKnowledge queryWords
  rw [h]

set_option maxRecDepth 40000 in
theorem searchMockKnowledge_case_insensitive_witness :
    lowerData "CLAY Wheel" = lowerData "clay wheel"
    ∧ searchMockKnowledge "CLAY Wheel" 2 = searchMockKnowledge "clay wheel" 2 :=
  ⟨by decide, searchMockKnowledge_case_insensitive "CLAY Wheel" "clay wheel" 2 (by decide)⟩

/-! ## `searchPineconeKnowledge` (`pottery-tool.ts` lines 96-164)

The two external services are oracles: `embedSvc` models the OpenAI
embeddings endpoint (`openai.embeddings.create`), `indexSvc` the Pinecone
index query; either may throw, which an `Except.error` represents. -/

/-- The metadata record of a Pinecone match; every field may be absent. -/
structure PineconeMetadata where
  title : Option String := none
  topic : Option String := none
  originalTerm : Option String := none
  original_term : Option String := none
  description : Option String := none
  lede : Option String := none
  content : Option String := none
  text : Option String := none
  category : Option String := none
  source : Option String := none
deriving Repr, DecidableEq

/-- A match returned by the Pinecone index. -/
structure PineconeMatch where
  score : Option ℚ := none
  metadata : Option PineconeMetadata := none
deriving Repr, DecidableEq

/-- The query object sent to `index.namespace(...).query`. -/
structure PineconeQuery where
  vector : List ℚ
  topK : Nat
  includeMetadata : Bool
deriving Repr, DecidableEq

/-- The request the tool builds: the query embedding as the vector and
`maxResults` as `topK`. -/
def pineconeRequest (emb : List ℚ) (maxResults : Nat) : PineconeQuery :=
  { vector := emb, topK := maxResults, includeMetadata := true }

/-- JavaScript `a || b` on an optional string: `b` unless `a` is truthy. -/
def orTruthy (a : Option String) (b : String) : String :=
  match a with
  | none => b
  | some s => if s.isEmpty then b else s

/-- JavaScript truthiness of an optional string. -/
def truthyStr : Option String → Bool
  | none => false
  | some s => !s.isEmpty

/-- `(q).toFixed(1)` for a (nonnegative) rational. -/
def toFixed1 (q : ℚ) : String :=
  let n : Int := round (q * 10)
  toString (n / 10) ++ "." ++ toString ((n % 10).natAbs)

/-- `match.score ? (match.score * 100).toFixed(1) : 'N/A'`. -/
def scoreDisplay : Option ℚ → String
  | none => "N/A"
  | some s => if s = 0 then "N/A" else toFixed1 (s * 100)

/-- The filter `match.score && match.score > 0.6` of the source (a missing or
zero score is falsy; `0.6` is the threshold). -/
def keepMatch (m : PineconeMatch) : Bool :=
  match m.score with
  | none => false
  | some s => if s = 0 then false else decide (s > 3/5)

/-- The claim-level predicate: the score is present and strictly above 0.6. -/
def scoreAboveThreshold (m : PineconeMatch) : Bool :=
  match m.score with
  | none => false
  | some s => decide (s > 3/5)

/-- Formatting of one kept match (`pottery-tool.ts` lines 124-151): metadata
fallback chains for topic and content, optional category and source, and the
relevance percentage. -/
def fmtPineconeMatch (i : Nat) (m : PineconeMatch) : String :=
  let md := m.metadata
  let topic :=
    orTruthy (md.bind (·.title))
      (orTruthy (md.bind (·.topic))
        (orTruthy (md.bind (·.originalTerm))
          (orTruthy (md.bind (·.original_term)) "General Information")))
  let content :=
    orTruthy (md.bind (·.description))
      (orTruthy (md.bind (·.lede))
        (orTruthy (md.bind (·.content))
          (orTruthy (md.bind (·.text)) "No detailed content available")))
  let category := orTruthy (md.bind (·.category)) ""
  let src := orTruthy (md.bind (·.source)) ""
  let r := "[Result " ++ toString (i + 1) ++ "] (Relevance: "
            ++ scoreDisplay m.score ++ "%) " ++ topic
  let r := if category.isEmpty then r else r ++ " [Category: " ++ category ++ "]"
  let r := r ++ ":\n" ++ content
  if src.isEmpty then r else r ++ "\n(Source: " ++ src ++ ")"

/-- The message when the index returns no matches at all. -/
def pineconeNoMatchesMsg : String :=
  "No relevant information found in the knowledge base for this query."

/-- The message when matches exist but none passes the threshold. -/
def pineconeNoRelevantMsg : String :=
  "No highly relevant information found. The query may be too specific or outside the knowledge base."

/-- `searchPineconeKnowledge(query, maxResults)`: embed the query, query the
index with `topK = maxResults`, filter by the score threshold and format; any
thrown error falls back to `searchMockKnowledge`. -/
def searchPineconeKnowledge
    (embedSvc : String → Except String (List ℚ))
    (indexSvc : PineconeQuery → Except String (List PineconeMatch))
    (query : String) (maxResults : Nat) : String :=
  match embedSvc query with
  | .error _ => searchMockKnowledge query maxResults
  | .ok emb =>
    match indexSvc (pineconeRequest emb maxResults) with
    | .error _ => searchMockKnowledge query maxResults
    | .ok found =>
      if found.isEmpty then
        pineconeNoMatchesMsg
      else
        let results := (found.filter keepMatch).mapIdx (fun i m => fmtPineconeMatch i m)
        if results.isEmpty then
          pineconeNoRelevantMsg
        else
          String.intercalate "\n\n" results

/-! ## The tool's `execute` (`pottery-tool.ts` lines 217-238) -/

/-- The `PINECONE_*` environment variables the tool consults. -/
structure PineconeEnv where
  apiKey : Option String
  indexName : Option String
deriving Repr, DecidableEq

/-- `process.env.PINECONE_API_KEY && process.env.PINECONE_INDEX_NAME`. -/
def usePinecone (env : PineconeEnv) : Bool :=
  truthyStr env.apiKey && truthyStr env.indexName

/-- The tool's output object. -/
structure ToolOutput where
  results : String
  query : String
deriving Repr, DecidableEq

/-- `potterySearchTool.execute`: vector search when Pinecone is configured,
otherwise the mock fallback. Total: no error escapes to the caller. -/
def potterySearchExecute
    (env : PineconeEnv)
    (embedSvc : String → Except String (List ℚ))
    (indexSvc : PineconeQuery → Except String (List PineconeMatch))
    (query : String) (maxResults : Nat) : ToolOutput :=
  if usePinecone env then
    { results := searchPineconeKnowledge embedSvc indexSvc query maxResults, query := query }
  else
    { results := searchMockKnowledge query maxResults, query := query }

/-! ## Concrete service oracles used by witnesses -/

def sampleEmbedSvc : String → Except String (List ℚ) := fun _ => .ok [1, 0]

def sampleMatchHigh : PineconeMatch :=
  { score := some (7/10),
    metadata := some { title := some "Raku", description := some "Raku firing." } }

def sampleMatchLow : PineconeMatch := { score := some (1/2) }

def sampleMatchNoScore : PineconeMatch := { }

def sampleIndexSvc : PineconeQuery → Except String (List PineconeMatch) :=
  fun _ => .ok [sampleMatchHigh, sampleMatchLow, sampleMatchNoScore]

def errEmbedSvc : String → Except String (List ℚ) := fun _ => .error "embeddings down"

def errIndexSvc : PineconeQuery → Except String (List PineconeMatch) :=
  fun _ => .error "index down"

/-- C1: when the embedding service answers `emb` for the query and the index,
queried with exactly that vector and `topK = maxResults`, returns a non-empty
match list, the formatted output keeps exactly the matches whose score is
present and strictly above 0.6, in the order returned (and falls back to the
fixed message when none qualifies); matches without a score or at the
threshold or below are never kept. -/
theorem searchPinecone_threshold_filter :
    ∀ (embedSvc : String → Except String (List ℚ))
      (indexSvc : PineconeQuery → Except String (List PineconeMatch))
      (query : String) (maxResults : Nat) (emb : List ℚ) (found : List PineconeMatch),
      embedSvc query = .ok emb →
      indexSvc (pineconeRequest emb maxResults) = .ok found →
      found ≠ [] →
      (pineconeRequest emb maxResults).topK = maxResults
      ∧ (pineconeRequest emb maxResults).vector = emb
      ∧ (∀ m : PineconeMatch, keepMatch m = scoreAboveThreshold m)
      ∧ (∀ m : PineconeMatch,
          scoreAboveThreshold m = true ↔ ∃ s : ℚ, m.score = some s ∧ s > 3/5)
      ∧ searchPineconeKnowledge embedSvc indexSvc query maxResults =
          (if (found.filter scoreAboveThreshold).isEmpty then pineconeNoRelevantMsg
           else String.intercalate "\n\n"
             ((found.filter scoreAboveThreshold).mapIdx (fun i m => fmtPineconeMatch i m))) := by
  intro embedSvc indexSvc query maxResults emb found hemb hidx hne
  have hkeep : ∀ m : PineconeMatch, keepMatch m = scoreAboveThreshold m := by
    intro m
    cases hm : m.score with
    | none => simp [keepMatch, scoreAboveThreshold, hm]
    | some s =>
      by_cases hs : s = 0
      · subst hs
        simp [keepMatch, scoreAboveThreshold, hm]
        norm_num
      · simp [keepMatch, scoreAboveThreshold, hm, hs]
  refine ⟨rfl, rfl, hkeep, ?_, ?_⟩
  · intro m
    cases hm : m.score with
    | none => simp [scoreAboveThreshold, hm]
    | some s => simp [scoreAboveThreshold, hm]
  · unfold searchPineconeKnowledge
    have hfil : found.filter keepMatch = found.filter scoreAboveThreshold :=
      List.filter_congr (fun m _ => hkeep m)
    simp only [hemb, hidx, hfil]
    rw [if_neg (by simpa [List.isEmpty_iff] using hne)]
    cases hk : found.filter scoreAboveThreshold with
    | nil => simp
    | cons a tl => simp

theorem searchPinecone_threshold_filter_witness :
    sampleEmbedSvc "raku" = .ok [1, 0]
    ∧ sampleIndexSvc (pineconeRequest [1, 0] 3)
        = .ok [sampleMatchHigh, sampleMatchLow, sampleMatchNoScore]
    ∧ [sampleMatchHigh, sampleMatchLow, sampleMatchNoScore] ≠ []
    ∧ searchPineconeKnowledge sampleEmbedSvc sampleIndexSvc "raku" 3 =
        (if (([sampleMatchHigh, sampleMatchLow, sampleMatchNoScore].filter
             scoreAboveThreshold)).isEmpty then pineconeNoRelevantMsg
         else String.intercalate "\n\n"
           ((([sampleMatchHigh, sampleMatchLow, sampleMatchNoScore].filter
             scoreAboveThreshold)).mapIdx (fun i m => fmtPineconeMatch i m))) :=
  ⟨rfl, rfl, by simp,
   (searchPinecone_threshold_filter sampleEmbedSvc sampleIndexSvc "raku" 3 [1, 0]
      [sampleMatchHigh, sampleMatchLow, sampleMatchNoScore] rfl rfl (by simp)).2.2.2.2⟩

/-- C3: whenever Pinecone is not configured (`PINECONE_API_KEY` or
`PINECONE_INDEX_NAME` unset/empty) or the vector path throws (embedding call
or index call), the tool's `execute` answers with the mock-knowledge fallback
on the same query and maxResults; it is a total function, so no service error
reaches the caller. -/
theorem potterySearch_fallback :
    ∀ (env : PineconeEnv)
      (embedSvc : String → Except String (List ℚ))
      (indexSvc : PineconeQuery → Except String (List PineconeMatch))
      (query : String) (maxResults : Nat),
      (usePinecone env = false →
        potterySearchExecute env embedSvc indexSvc query maxResults
          = { results := searchMockKnowledge query maxResults, query := query })
      ∧ (∀ e, embedSvc query = .error e →
          (potterySearchExecute env embedSvc indexSvc query maxResults).results
            = searchMockKnowledge query maxResults)
      ∧ (∀ emb e, embedSvc query = .ok emb →
          indexSvc (pineconeRequest emb maxResults) = .error e →
          (potterySearchExecute env embedSvc indexSvc query maxResults).results
            = searchMockKnowledge query maxResults) := by
  intro env embedSvc indexSvc query maxResults
  refine ⟨?_, ?_, ?_⟩
  · intro h
    simp [potterySearchExecute, h]
  · intro e he
    by_cases hu : usePinecone env
    · simp [potterySearchExecute, hu, searchPineconeKnowledge, he]
    · simp [potterySearchExecute, hu]
  · intro emb e hemb hidx
    by_cases hu : usePinecone env
    · simp [potterySearchExecute, hu, searchPineconeKnowledge, hemb, hidx]
    · simp [potterySearchExecute, hu]

theorem potterySearch_fallback_witness :
    (usePinecone { apiKey := none, indexName := some "pottery-knowledge" } = false
      ∧ potterySearchExecute { apiKey := none, indexName := some "pottery-knowledge" }
          sampleEmbedSvc sampleIndexSvc "clay" 3
        = { results := searchMockKnowledge "clay" 3, query := "clay" })
    ∧ (errEmbedSvc "clay" = .error "embeddings down"
      ∧ (potterySearchExecute { apiKey := some "k", indexName := some "i" }
          errEmbedSvc sampleIndexSvc "clay" 3).results = searchMockKnowledge "clay" 3)
    ∧ (sampleEmbedSvc "clay" = .ok [1, 0]
      ∧ errIndexSvc (pineconeRequest [1, 0] 3) = .error "index down"
      ∧ (potterySearchExecute { apiKey := some "k", indexName := some "i" }
          sampleEmbedSvc errIndexSvc "clay" 3).results = searchMockKnowledge "clay" 3) :=
  ⟨⟨rfl, (potterySearch_fallback { apiKey := none, indexName := some "pottery-knowledge" }
      sampleEmbedSvc sampleIndexSvc "clay" 3).1 rfl⟩,
   ⟨rfl, (potterySearch_fallback { apiKey := some "k", indexName := some "i" }
      errEmbedSvc sampleIndexSvc "clay" 3).2.1 "embeddings down" rfl⟩,
   ⟨rfl, rfl, (potterySearch_fallback { apiKey := some "k", indexName := some "i" }
      sampleEmbedSvc errIndexSvc "clay" 3).2.2 [1, 0] "index down" rfl rfl⟩⟩

/-! ## A2A messages and message parts (`a2a-pottery-route.ts`)

JSON values carried in `data` parts are modelled by `Jx`; `Jx.render` models
`JSON.stringify` on them. -/

inductive Jx where
  | null
  | bool (b : Bool)
  | num (n : Int)
  | str (s : String)
  | arr (elems : List Jx)
  | obj (fields : List (String × Jx))
deriving Repr

mutual

/-- `JSON.stringify` on a `Jx` value. -/
def Jx.render : Jx → String
  | .null => "null"
  | .bool b => if b then "true" else "false"
  | .num n => toString n
  | .str s => "\"" ++ s ++ "\""
  | .arr xs => "[" ++ Jx.renderList xs ++ "]"
  | .obj fs => "\x7b" ++ Jx.renderFields fs ++ "\x7d"

/-- Comma-separated rendering of array elements. -/
def Jx.renderList : List Jx → String
  | [] => ""
  | [x] => Jx.render x
  | x :: y :: xs => Jx.render x ++ "," ++ Jx.renderList (y :: xs)

/-- Comma-separated rendering of object fields. -/
def Jx.renderFields : List (String × Jx) → String
  | [] => ""
  | [(k, v)] => "\"" ++ k ++ "\":" ++ Jx.render v
  | (k, v) :: g :: fs => "\"" ++ k ++ "\":" ++ Jx.render v ++ "," ++ Jx.renderFields (g :: fs)

end

/-- One element of a message's `parts` array, discriminated by its `kind`
field: `'text'` parts carry text, `'data'` parts carry a JSON value, any
other kind is opaque. -/
inductive MsgPart where
  | text (t : String)
  | data (d : Jx)
  | other (kind : String)
deriving Repr

/-- The per-part branch of `extractMessageContent`: text for `'text'`,
`JSON.stringify(part.data)` for `'data'`, the empty string otherwise. -/
def partContent : MsgPart → String
  | .text t => t
  | .data d => d.render
  | .other _ => ""

/-- An incoming A2A message: a role, an optional `parts` array, and the
optional identifiers the handlers read off it. -/
structure A2AMessage where
  role : String := "user"
  parts : Option (List MsgPart) := none
  messageId : Option String := none
  taskId : Option String := none
  timestamp : Option String := none
deriving Repr

/-- `extractMessageContent(msg)` (`a2a-pottery-route.ts` lines 430-440). -/
def extractMessageContent (msg : A2AMessage) : String :=
  match msg.parts with
  | none => ""
  | some ps => String.intercalate "\n" (ps.map partContent)

/-- C6: the text forwarded to the agent is extracted from the nested parts:
a `'text'` part contributes its text, a `'data'` part the JSON serialization
of its data, any other kind the empty string; contributions are joined with
newlines, and a message without a parts array yields the empty string. -/
theorem extractMessageContent_spec :
    (∀ t : String, partContent (.text t) = t)
    ∧ (∀ d : Jx, partContent (.data d) = d.render)
    ∧ (∀ k : String, partContent (.other k) = "")
    ∧ (∀ (msg : A2AMessage) (ps : List MsgPart), msg.parts = some ps →
        extractMessageContent msg = String.intercalate "\n" (ps.map partContent))
    ∧ (∀ msg : A2AMessage, msg.parts = none → extractMessageContent msg = "") := by
  refine ⟨fun _ => rfl, fun _ => rfl, fun _ => rfl, ?_, ?_⟩
  · intro msg ps h
    simp [extractMessageContent, h]
  · intro msg h
    simp [extractMessageContent, h]

theorem extractMessageContent_spec_witness :
    ({ parts := some [MsgPart.text "hi", MsgPart.data (.num 3), MsgPart.other "file"] }
        : A2AMessage).parts
      = some [MsgPart.text "hi", MsgPart.data (.num 3), MsgPart.other "file"]
    ∧ extractMessageContent
        { parts := some [MsgPart.text "hi", MsgPart.data (.num 3), MsgPart.other "file"] }
      = String.intercalate "\n"
          ([MsgPart.text "hi", MsgPart.data (.num 3), MsgPart.other "file"].map partContent)
    ∧ extractMessageContent ({ parts := none } : A2AMessage) = "" :=
  ⟨rfl,
   extractMessageContent_spec.2.2.2.1
     { parts := some [MsgPart.text "hi", MsgPart.data (.num 3), MsgPart.other "file"] } _ rfl,
   extractMessageContent_spec.2.2.2.2 { parts := none } rfl⟩

/-! ## The A2A pottery route (`a2a-pottery-route.ts`) -/

/-- The `params` object of a pottery-route JSON-RPC request. `id` is the task
id (destructured as `taskId` in the source). -/
structure A2AParams where
  message : Option A2AMessage := none
  messages : Option (List A2AMessage) := none
  id : Option String := none
  sessionId : Option String := none
  historyLength : Option Int := none
deriving Repr

/-- A parsed JSON-RPC request body. Absent fields are `none`; an `id` equal to
the empty string is present but falsy (`!requestId` in the source). -/
structure A2ARequest where
  jsonrpc : Option String := none
  id : Option String := none
  method : Option String := none
  params : Option A2AParams := none
deriving Repr

/-- A history entry of the returned task (`kind: 'message'`). -/
structure HistMsg where
  kind : String := "message"
  role : String
  parts : Option (List MsgPart)
  messageId : String
  taskId : String
  timestamp : Option String := none
deriving Repr

/-- An artifact of the returned task. -/
structure Artifact where
  artifactId : String
  name : String
  description : Option String := none
  parts : List MsgPart
deriving Repr

/-- The `result` object of a successful task response. -/
structure TaskResult where
  id : String
  contextId : String
  sessionId : Option String := none
  statusState : String
  statusMessageText : Option String := none
  artifacts : List Artifact := []
  history : List HistMsg := []
deriving Repr

/-- A JSON-RPC response body: always `jsonrpc: '2.0'`, an id (or null), and
either an error code or a result. -/
structure RpcBody where
  jsonrpc : String := "2.0"
  id : Option String := none
  errorCode : Option Int := none
  result : Option TaskResult := none
deriving Repr

/-- What the route hands back: a JSON response with an HTTP status, or an
SSE stream of frames. -/
inductive RouteOutcome where
  | json (status : Nat) (body : RpcBody)
  | stream (frames : List String)
deriving Repr

/-- The agent's reply as `agent.generate` resolves it: the text and any tool
results (`response.text`, `response.toolResults`). -/
structure AgentResp where
  text : Option String := none
  toolResults : List Jx := []
deriving Repr

/-- `requestId || null`: the id echoed by the first validation error. -/
def echoId (req : A2ARequest) : Option String :=
  if truthyStr req.id then req.id else none

/-- The message list: `[message]` if `message` is set, else the `messages`
array if it is one, else nothing (which is the invalid-params case). -/
def messagesListOf (ps : A2AParams) : Option (List A2AMessage) :=
  match ps.message with
  | some m => some [m]
  | none => ps.messages

/-- One incoming message converted to a history entry
(`a2a-pottery-route.ts` lines 168-175). -/
def histOfIncoming (curTaskId uuid now : String) (msg : A2AMessage) : HistMsg :=
  { kind := "message", role := msg.role, parts := msg.parts,
    messageId := orTruthy msg.messageId uuid, taskId := curTaskId,
    timestamp := some (orTruthy msg.timestamp now) }

/-- The agent's reply appended as the final history entry (lines 176-183). -/
def agentReplyHist (agentText curTaskId uuid now : String) : HistMsg :=
  { kind := "message", role := "agent", parts := some [MsgPart.text agentText],
    messageId := uuid, taskId := curTaskId, timestamp := some now }

/-- The full conversation history: converted incoming messages followed by
the agent reply. -/
def buildHistory (msgs : List A2AMessage) (agentText curTaskId uuid now : String) :
    List HistMsg :=
  msgs.map (histOfIncoming curTaskId uuid now) ++ [agentReplyHist agentText curTaskId uuid now]

/-- `historyLength && historyLength > 0 ? history.slice(-historyLength) : history`. -/
def limitHistory (historyLength : Option Int) (history : List HistMsg) : List HistMsg :=
  match historyLength with
  | some n => if 0 < n then history.drop (history.length - n.toNat) else history
  | none => history

/-- The artifacts array: the main response artifact, plus a tool-results
artifact when the agent used tools (lines 144-164). -/
def sendArtifacts (agentId agentText uuid : String) (toolResults : List Jx) :
    List Artifact :=
  [{ artifactId := uuid, name := agentId ++ "Response",
     description := some "Main response from pottery expert",
     parts := [MsgPart.text agentText] }]
  ++ (if toolResults.isEmpty then []
      else [{ artifactId := uuid, name := "PotteryKnowledgeResults",
              description := some "RAG search results from Pinecone vector database",
              parts := toolResults.map MsgPart.data }])

/-- The task object `handleMessageSend` returns on success (lines 192-221). -/
def sendTask (agentId : String) (ps : A2AParams) (resp : AgentResp)
    (msgs : List A2AMessage) (uuid now : String) : TaskResult :=
  let agentText := orTruthy resp.text ""
  let currentTaskId := orTruthy ps.id uuid
  let currentContextId := orTruthy ps.sessionId uuid
  { id := currentTaskId, contextId := currentContextId,
    sessionId := some currentContextId,
    statusState := "completed", statusMessageText := some agentText,
    artifacts := sendArtifacts agentId agentText uuid resp.toolResults,
    history := limitHistory ps.historyLength
      (buildHistory msgs agentText currentTaskId uuid now) }

/-- `handleMessageSend` (lines 98-222). A thrown `agent.generate` error
escapes to the route's catch-all, which answers 500 / -32603 with a null id. -/
def handleMessageSend (agentId : String) (req : A2ARequest)
    (gen : Except String AgentResp) (uuid now : String) : RouteOutcome :=
  let ps := req.params.getD {}
  match messagesListOf ps with
  | none =>
    .json 400 { jsonrpc := "2.0", id := req.id, errorCode := some (-32602) }
  | some msgs =>
    match gen with
    | .error _ =>
      .json 500 { jsonrpc := "2.0", id := none, errorCode := some (-32603) }
    | .ok resp =>
      .json 200 { jsonrpc := "2.0", id := req.id,
                  result := some (sendTask agentId ps resp msgs uuid now) }

/-! ## `handleMessageStream` (`a2a-pottery-route.ts` lines 228-354)

The agent's stream is an oracle: `chunks` are the text chunks that arrive
(possibly empty strings, which the handler skips), and `streamErr` is an
error raised after them (`none` when the stream completes normally). -/

/-- The events the stream loop enqueues, before SSE framing. -/
inductive StreamEvent where
  | start
  | chunk (text : String)
  | completed (fullText : String)
  | errorEv (code : Int) (details : String)
deriving Repr

/-- Concatenation of a list of strings, in order. -/
def concatAll (l : List String) : String :=
  l.foldr (· ++ ·) ""

/-- The `for await` loop: skip falsy chunks, emit one streaming event per
truthy chunk, and accumulate `fullText`. Returns the events and the final
accumulated text. -/
def streamLoop (fullText : String) : List String → List StreamEvent × String
  | [] => ([], fullText)
  | c :: cs =>
    if c.isEmpty then streamLoop fullText cs
    else
      let r := streamLoop (fullText ++ c) cs
      (.chunk c :: r.1, r.2)

/-- All events of one `message/stream` call: the initial `processing` event,
the streaming events, then either the completion event carrying the full
text or (if the agent stream threw) a single error event with code -32603. -/
def handleMessageStreamEvents (chunks : List String) (streamErr : Option String) :
    List StreamEvent :=
  let r := streamLoop "" chunks
  .start :: r.1 ++ [match streamErr with
                    | some d => .errorEv (-32603) d
                    | none => .completed r.2]

/-- A JSON object as a string: an opening brace, the fields, a closing brace. -/
def jsObj (body : String) : String :=
  "\x7b" ++ body ++ "\x7d"

/-- `JSON.stringify` of one enqueued event object, with the request id, task
id, context id, timestamp and message id filled in. Every case is a JSON
object (`jsObj`). -/
def renderStreamEvent (requestId taskId ctxId now uuid : String) : StreamEvent → String
  | .start => jsObj
      ("\"jsonrpc\":\"2.0\",\"id\":\"" ++ requestId
      ++ "\",\"result\":\x7b\"id\":\"" ++ taskId
      ++ "\",\"contextId\":\"" ++ ctxId
      ++ "\",\"status\":\x7b\"state\":\"processing\",\"timestamp\":\"" ++ now
      ++ "\"\x7d,\"kind\":\"task\"\x7d")
  | .chunk t => jsObj
      ("\"jsonrpc\":\"2.0\",\"id\":\"" ++ requestId
      ++ "\",\"result\":\x7b\"id\":\"" ++ taskId
      ++ "\",\"contextId\":\"" ++ ctxId
      ++ "\",\"status\":\x7b\"state\":\"streaming\",\"timestamp\":\"" ++ now
      ++ "\",\"message\":\x7b\"kind\":\"message\",\"role\":\"agent\",\"parts\":[\x7b\"kind\":\"text\",\"text\":\""
      ++ t ++ "\"\x7d]\x7d\x7d\x7d")
  | .completed ft => jsObj
      ("\"jsonrpc\":\"2.0\",\"id\":\"" ++ requestId
      ++ "\",\"result\":\x7b\"id\":\"" ++ taskId
      ++ "\",\"contextId\":\"" ++ ctxId
      ++ "\",\"status\":\x7b\"state\":\"completed\",\"timestamp\":\"" ++ now
      ++ "\",\"message\":\x7b\"messageId\":\"" ++ uuid
      ++ "\",\"role\":\"agent\",\"parts\":[\x7b\"kind\":\"text\",\"text\":\"" ++ ft
      ++ "\"\x7d],\"kind\":\"message\"\x7d\x7d,\"artifacts\":[\x7b\"artifactId\":\"" ++ uuid
      ++ "\",\"parts\":[\x7b\"kind\":\"text\",\"text\":\"" ++ ft
      ++ "\"\x7d]\x7d],\"kind\":\"task\"\x7d")
  | .errorEv c d => jsObj
      ("\"jsonrpc\":\"2.0\",\"id\":\"" ++ requestId
      ++ "\",\"error\":\x7b\"code\":" ++ toString c
      ++ ",\"message\":\"Streaming error\",\"data\":\x7b\"details\":\"" ++ d
      ++ "\"\x7d\x7d")

/-- SSE framing: `controller.enqueue('data: ' + JSON.stringify(event) + '\n\n')`. -/
def sseFrame (rendered : String) : String :=
  "data: " ++ rendered ++ "\n\n"

/-- The full frame list of one `message/stream` call. -/
def handleMessageStreamFrames (requestId taskId ctxId now uuid : String)
    (chunks : List String) (streamErr : Option String) : List String :=
  (handleMessageStreamEvents chunks streamErr).map
    (fun e => sseFrame (renderStreamEvent requestId taskId ctxId now uuid e))

/-! ## The route dispatcher (`a2a-pottery-route.ts` lines 15-92) -/

/-- `handleTasksGet` / `handleTasksCancel` share this shape: -32602 without a
task id, otherwise a placeholder task (states `completed` / `cancelled`). -/
def handleTasksShared (state : String) (req : A2ARequest) (uuid : String) : RouteOutcome :=
  let ps := req.params.getD {}
  if truthyStr ps.id then
    .json 200 { jsonrpc := "2.0", id := req.id,
                result := some { id := ps.id.getD uuid, contextId := uuid,
                                 statusState := state } }
  else
    .json 400 { jsonrpc := "2.0", id := req.id, errorCode := some (-32602) }

/-- The pottery A2A route handler: JSON-RPC validation, agent lookup, method
dispatch. `knownAgents` models the Mastra instance's registry; `gen` the
`agent.generate` call; `chunks`/`streamErr` the `agent.stream` call. -/
def a2aPotteryHandler (knownAgents : List String) (agentId : String)
    (req : A2ARequest) (gen : Except String AgentResp)
    (chunks : List String) (streamErr : Option String)
    (uuid now : String) : RouteOutcome :=
  if !(req.jsonrpc == some "2.0") || !truthyStr req.id then
    .json 400 { jsonrpc := "2.0", id := echoId req, errorCode := some (-32600) }
  else if !(knownAgents.contains agentId) then
    .json 404 { jsonrpc := "2.0", id := req.id, errorCode := some (-32602) }
  else
    match req.method with
    | some "message/send" => handleMessageSend agentId req gen uuid now
    | some "message/stream" =>
      let ps := req.params.getD {}
      .stream (handleMessageStreamFrames (req.id.getD "") (orTruthy ps.id uuid)
                 (orTruthy ps.sessionId uuid) now uuid chunks streamErr)
    | some "tasks/get" => handleTasksShared "completed" req uuid
    | some "tasks/cancel" => handleTasksShared "cancelled" req uuid
    | _ => .json 400 { jsonrpc := "2.0", id := req.id, errorCode := some (-32601) }

/-! ## C4: JSON-RPC error-code mapping of the pottery route

The claim's final clause — "every error response body ... echoes the request
id when one was supplied" — fails on the catch-all internal error: the
route's `catch` hardcodes `id: null` (`a2a-pottery-route.ts` line 80), so an
`agent.generate` exception on a request that did supply an id answers with a
null id. -/

/-- A well-formed `message/send` request carrying the id "42", on which the
catch-all branch is reached when the agent call throws. -/
def cexReq : A2ARequest :=
  { jsonrpc := some "2.0", id := some "42", method := some "message/send",
    params := some { message := some { role := "user", parts := some [MsgPart.text "hi"] } } }

/-- C4 counterexample: on `cexReq` (which supplies the id "42") with a
throwing agent, the route answers the internal error -32603 with id null —
it does not echo the supplied request id, contradicting the claim's clause
that every error response echoes the id when one was supplied. -/
theorem a2aPottery_id_not_echoed_cex :
    a2aPotteryHandler ["potteryAgent"] "potteryAgent" cexReq (.error "LLM down")
        [] none "u" "t"
      = .json 500 { jsonrpc := "2.0", id := none, errorCode := some (-32603) }
    ∧ cexReq.id = some "42"
    ∧ (none : Option String) ≠ some "42" :=
  ⟨rfl, rfl, by simp⟩

/-- C4 (amended): the route maps error conditions to JSON-RPC codes as the
claim lists them — bad jsonrpc or missing (falsy) id: -32600/400; unknown
agent: -32602/404; `message/send` without message or messages array:
-32602/400; unsupported method: -32601/400; an uncaught exception:
-32603/500 — and every error response carries jsonrpc '2.0' and echoes the
request id, EXCEPT the catch-all internal error, whose id is always null. -/
theorem a2aPottery_error_code_mapping :
    ∀ (knownAgents : List String) (agentId : String) (req : A2ARequest)
      (gen : Except String AgentResp) (chunks : List String)
      (streamErr : Option String) (uuid now : String),
      ((req.jsonrpc ≠ some "2.0" ∨ truthyStr req.id = false) →
        a2aPotteryHandler knownAgents agentId req gen chunks streamErr uuid now
          = .json 400 { jsonrpc := "2.0", id := echoId req, errorCode := some (-32600) })
      ∧ (req.jsonrpc = some "2.0" → truthyStr req.id = true →
         knownAgents.contains agentId = false →
        a2aPotteryHandler knownAgents agentId req gen chunks streamErr uuid now
          = .json 404 { jsonrpc := "2.0", id := req.id, errorCode := some (-32602) })
      ∧ (req.jsonrpc = some "2.0" → truthyStr req.id = true →
         knownAgents.contains agentId = true →
         req.method = some "message/send" →
         messagesListOf (req.params.getD {}) = none →
        a2aPotteryHandler knownAgents agentId req gen chunks streamErr uuid now
          = .json 400 { jsonrpc := "2.0", id := req.id, errorCode := some (-32602) })
      ∧ (req.jsonrpc = some "2.0" → truthyStr req.id = true →
         knownAgents.contains agentId = true →
         req.method ∉ [some "message/send", some "message/stream",
                       some "tasks/get", some "tasks/cancel"] →
        a2aPotteryHandler knownAgents agentId req gen chunks streamErr uuid now
          = .json 400 { jsonrpc := "2.0", id := req.id, errorCode := some (-32601) })
      ∧ (∀ (e : String) (msgs : List A2AMessage),
         req.jsonrpc = some "2.0" → truthyStr req.id = true →
         knownAgents.contains agentId = true →
         req.method = some "message/send" →
         messagesListOf (req.params.getD {}) = some msgs →
         gen = .error e →
        a2aPotteryHandler knownAgents agentId req gen chunks streamErr uuid now
          = .json 500 { jsonrpc := "2.0", id := none, errorCode := some (-32603) }) := by
  intro knownAgents agentId req gen chunks streamErr uuid now
  refine ⟨?_, ?_, ?_, ?_, ?_⟩
  · rintro (h | h)
    · have hb : (req.jsonrpc == some "2.0") = false := beq_eq_false_iff_ne.mpr h
      simp [a2aPotteryHandler, hb]
    · simp [a2aPotteryHandler, h]
  · intro hj hid hag
    have hag' : agentId ∉ knownAgents := by simpa using hag
    simp [a2aPotteryHandler, hj, hid, hag']
  · intro hj hid hag hm hnone
    have hag' : agentId ∈ knownAgents := by simpa using hag
    simp [a2aPotteryHandler, hj, hid, hag', hm, handleMessageSend, hnone]
  · intro hj hid hag hm
    have hag' : agentId ∈ knownAgents := by simpa using hag
    cases hmeth : req.method with
    | none =>
      simp [a2aPotteryHandler, hj, hid, hag', hmeth]
    | some s =>
      have h1 : s ≠ "message/send" := fun h => hm (by simp [hmeth, h])
      have h2 : s ≠ "message/stream" := fun h => hm (by simp [hmeth, h])
      have h3 : s ≠ "tasks/get" := fun h => hm (by simp [hmeth, h])
      have h4 : s ≠ "tasks/cancel" := fun h => hm (by simp [hmeth, h])
      simp only [a2aPotteryHandler, hj, hid, hmeth]
      rw [if_neg (by simp [hid]), if_neg (by simpa using hag)]
      split <;> simp_all
  · intro e msgs hj hid hag hm hmsgs hgen
    have hag' : agentId ∈ knownAgents := by simpa using hag
    simp [a2aPotteryHandler, hj, hid, hag', hm, handleMessageSend, hmsgs, hgen]

def reqBadVersion : A2ARequest := { jsonrpc := some "1.0", id := some "7" }

def reqUnknownAgent : A2ARequest :=
  { jsonrpc := some "2.0", id := some "7", method := some "message/send",
    params := some { message := some { role := "user", parts := some [MsgPart.text "hi"] } } }

def reqNoMessage : A2ARequest :=
  { jsonrpc := some "2.0", id := some "7", method := some "message/send" }

def reqBadMethod : A2ARequest :=
  { jsonrpc := some "2.0", id := some "7", method := some "bogus/method" }

theorem a2aPottery_error_code_mapping_witness :
    (a2aPotteryHandler ["potteryAgent"] "potteryAgent" reqBadVersion (.ok {}) [] none "u" "t"
       = .json 400 { jsonrpc := "2.0", id := echoId reqBadVersion, errorCode := some (-32600) })
    ∧ (a2aPotteryHandler ["potteryAgent"] "weatherAgent" reqUnknownAgent (.ok {}) [] none "u" "t"
       = .json 404 { jsonrpc := "2.0", id := reqUnknownAgent.id, errorCode := some (-32602) })
    ∧ (a2aPotteryHandler ["potteryAgent"] "potteryAgent" reqNoMessage (.ok {}) [] none "u" "t"
       = .json 400 { jsonrpc := "2.0", id := reqNoMessage.id, errorCode := some (-32602) })
    ∧ (a2aPotteryHandler ["potteryAgent"] "potteryAgent" reqBadMethod (.ok {}) [] none "u" "t"
       = .json 400 { jsonrpc := "2.0", id := reqBadMethod.id, errorCode := some (-32601) })
    ∧ (a2aPotteryHandler ["potteryAgent"] "potteryAgent" cexReq (.error "boom") [] none "u" "t"
       = .json 500 { jsonrpc := "2.0", id := none, errorCode := some (-32603) }) :=
  ⟨(a2aPottery_error_code_mapping ["potteryAgent"] "potteryAgent" reqBadVersion
      (.ok {}) [] none "u" "t").1 (Or.inl (by decide)),
   (a2aPottery_error_code_mapping ["potteryAgent"] "weatherAgent" reqUnknownAgent
      (.ok {}) [] none "u" "t").2.1 rfl (by decide) (by decide),
   (a2aPottery_error_code_mapping ["potteryAgent"] "potteryAgent" reqNoMessage
      (.ok {}) [] none "u" "t").2.2.1 rfl (by decide) (by decide) rfl rfl,
   (a2aPottery_error_code_mapping ["potteryAgent"] "potteryAgent" reqBadMethod
      (.ok {}) [] none "u" "t").2.2.2.1 rfl (by decide) (by decide) (by decide),
   (a2aPottery_error_code_mapping ["potteryAgent"] "potteryAgent" cexReq
      (.error "boom") [] none "u" "t").2.2.2.2 "boom"
      [{ role := "user", parts := some [MsgPart.text "hi"] }]
      rfl (by decide) (by decide) rfl rfl rfl⟩

/-! ## C10: history truncation in `handleMessageSend` -/

theorem getLast?_drop_append {α : Type} (l : List α) (x : α) (k : Nat)
    (hk : k ≤ l.length) :
    ((l ++ [x]).drop k).getLast? = some x := by
  rw [List.drop_append_of_le_length hk, List.getLast?_append]
  simp

/-- C10: for a positive `historyLength` n, the returned history is exactly the
length-at-most-n suffix of the full history (incoming messages then the agent
reply), so its last entry is always the agent's reply; when `historyLength`
is absent or not positive the full history is returned unchanged. -/
theorem handleMessageSend_history_limit :
    ∀ (agentId : String) (req : A2ARequest) (ps : A2AParams) (resp : AgentResp)
      (msgs : List A2AMessage) (uuid now : String),
      req.params = some ps →
      messagesListOf ps = some msgs →
      (handleMessageSend agentId req (.ok resp) uuid now
        = .json 200 { jsonrpc := "2.0", id := req.id,
                      result := some (sendTask agentId ps resp msgs uuid now) })
      ∧ ((sendTask agentId ps resp msgs uuid now).history
          = limitHistory ps.historyLength
              (buildHistory msgs (orTruthy resp.text "") (orTruthy ps.id uuid) uuid now))
      ∧ (∀ (n : Int) (agentText curTaskId : String), ps.historyLength = some n → 0 < n →
          limitHistory ps.historyLength (buildHistory msgs agentText curTaskId uuid now)
            = (buildHistory msgs agentText curTaskId uuid now).drop
                ((buildHistory msgs agentText curTaskId uuid now).length - n.toNat)
          ∧ (limitHistory ps.historyLength
              (buildHistory msgs agentText curTaskId uuid now)).length ≤ n.toNat
          ∧ (limitHistory ps.historyLength
              (buildHistory msgs agentText curTaskId uuid now)).getLast?
              = some (agentReplyHist agentText curTaskId uuid now))
      ∧ (ps.historyLength = none →
          ∀ hist, limitHistory ps.historyLength hist = hist)
      ∧ (∀ n : Int, ps.historyLength = some n → n ≤ 0 →
          ∀ hist, limitHistory ps.historyLength hist = hist) := by
  intro agentId req ps resp msgs uuid now hps hmsgs
  refine ⟨?_, rfl, ?_, ?_, ?_⟩
  · simp [handleMessageSend, hps, hmsgs]
  · intro n agentText curTaskId hn hpos
    rw [hn]
    have hlen : (buildHistory msgs agentText curTaskId uuid now).length
        = msgs.length + 1 := by
      simp [buildHistory]
    refine ⟨by simp [limitHistory, hpos], ?_, ?_⟩
    · simp only [limitHistory, hpos, if_pos, List.length_drop]
      omega
    · simp only [limitHistory, hpos, if_pos]
      unfold buildHistory
      apply getLast?_drop_append
      have h1 : 1 ≤ n.toNat := by omega
      rw [← buildHistory, hlen]
      simp [buildHistory]
      omega
  · intro hn hist
    simp [limitHistory, hn]
  · intro n hn hneg hist
    simp only [limitHistory, hn]
    rw [if_neg (by omega)]

def histMsg1 : A2AMessage := { role := "user", parts := some [MsgPart.text "hi"] }

def histParams : A2AParams := { message := some histMsg1, historyLength := some 1 }

def histReq : A2ARequest :=
  { jsonrpc := some "2.0", id := some "9", method := some "message/send",
    params := some histParams }

theorem handleMessageSend_history_limit_witness :
    (handleMessageSend "potteryAgent" histReq (.ok {}) "u" "t"
      = .json 200 { jsonrpc := "2.0", id := histReq.id,
                    result := some (sendTask "potteryAgent" histParams {} [histMsg1] "u" "t") })
    ∧ (limitHistory histParams.historyLength (buildHistory [histMsg1] "a" "c" "u" "t")
        = (buildHistory [histMsg1] "a" "c" "u" "t").drop
            ((buildHistory [histMsg1] "a" "c" "u" "t").length - (1 : Int).toNat)
      ∧ (limitHistory histParams.historyLength
          (buildHistory [histMsg1] "a" "c" "u" "t")).length ≤ (1 : Int).toNat
      ∧ (limitHistory histParams.historyLength
          (buildHistory [histMsg1] "a" "c" "u" "t")).getLast?
          = some (agentReplyHist "a" "c" "u" "t")) :=
  ⟨(handleMessageSend_history_limit "potteryAgent" histReq histParams {} [histMsg1]
      "u" "t" rfl rfl).1,
   (handleMessageSend_history_limit "potteryAgent" histReq histParams {} [histMsg1]
      "u" "t" rfl rfl).2.2.1 1 "a" "c" rfl (by decide)⟩

/-! ## C5: SSE framing and event sequence of `message/stream` -/

theorem streamLoop_eq (cs : List String) :
    ∀ ft : String,
      streamLoop ft cs
        = ((cs.filter (fun c => !c.isEmpty)).map StreamEvent.chunk,
           ft ++ concatAll (cs.filter (fun c => !c.isEmpty))) := by
  induction cs with
  | nil =>
    intro ft
    simp [streamLoop, concatAll]
  | cons c cs ih =>
    intro ft
    by_cases hc : c.isEmpty
    · simp [streamLoop, hc, List.filter_cons, ih]
    · simp [streamLoop, hc, List.filter_cons, ih, concatAll, String.append_assoc]

/-- C5: every frame of `handleMessageStream` is `data: ` ++ a JSON object ++
a blank line; the event sequence starts with one `processing` event, has one
`streaming` event per non-empty chunk in order, and ends with exactly one
`completed` event whose message text is the concatenation of all streamed
chunk texts — unless the agent stream threw, in which case a single -32603
error event replaces the completion event. -/
theorem handleMessageStream_sse :
    ∀ (requestId taskId ctxId now uuid : String) (chunks : List String)
      (streamErr : Option String),
      (handleMessageStreamFrames requestId taskId ctxId now uuid chunks streamErr
        = (handleMessageStreamEvents chunks streamErr).map
            (fun e => "data: " ++ renderStreamEvent requestId taskId ctxId now uuid e ++ "\n\n"))
      ∧ (∀ e ∈ handleMessageStreamEvents chunks streamErr,
          ∃ body : String,
            renderStreamEvent requestId taskId ctxId now uuid e = jsObj body)
      ∧ (streamErr = none →
          handleMessageStreamEvents chunks streamErr
            = .start :: (chunks.filter (fun c => !c.isEmpty)).map StreamEvent.chunk
                ++ [.completed (concatAll (chunks.filter (fun c => !c.isEmpty)))])
      ∧ (∀ d : String, streamErr = some d →
          handleMessageStreamEvents chunks streamErr
            = .start :: (chunks.filter (fun c => !c.isEmpty)).map StreamEvent.chunk
                ++ [.errorEv (-32603) d]) := by
  intro requestId taskId ctxId now uuid chunks streamErr
  refine ⟨rfl, ?_, ?_, ?_⟩
  · intro e _
    cases e with
    | start => exact ⟨_, rfl⟩
    | chunk t => exact ⟨_, rfl⟩
    | completed ft => exact ⟨_, rfl⟩
    | errorEv c d => exact ⟨_, rfl⟩
  · intro h
    subst h
    unfold handleMessageStreamEvents
    rw [streamLoop_eq]
    simp
  · intro d h
    subst h
    unfold handleMessageStreamEvents
    rw [streamLoop_eq]

theorem handleMessageStream_sse_witness :
    ((none : Option String) = none →
      handleMessageStreamEvents ["Hel", "", "lo"] none
        = .start :: (["Hel", "", "lo"].filter (fun c => !c.isEmpty)).map StreamEvent.chunk
            ++ [.completed (concatAll (["Hel", "", "lo"].filter (fun c => !c.isEmpty)))])
    ∧ (handleMessageStreamEvents ["Hel"] (some "boom")
        = .start :: (["Hel"].filter (fun c => !c.isEmpty)).map StreamEvent.chunk
            ++ [.errorEv (-32603) "boom"])
    ∧ (∀ e ∈ handleMessageStreamEvents ["Hel", "", "lo"] none,
        ∃ body : String, renderStreamEvent "r" "t" "c" "n" "u" e = jsObj body) :=
  ⟨(handleMessageStream_sse "r" "t" "c" "n" "u" ["Hel", "", "lo"] none).2.2.1,
   (handleMessageStream_sse "r" "t" "c" "n" "u" ["Hel"] (some "boom")).2.2.2 "boom" rfl,
   (handleMessageStream_sse "r" "t" "c" "n" "u" ["Hel", "", "lo"] none).2.1⟩

/-! ## The agent route (`a2aAgentRoute.ts`): blocking vs non-blocking

The route validates like the pottery route, then either answers the agent's
result directly (blocking) or immediately acknowledges and does the agent
work in the background, POSTing the outcome to the caller-supplied webhook
(`pushNotificationConfig.url`) with a Bearer token. -/

/-- `configuration.pushNotificationConfig`. -/
structure PushConfig where
  url : Option String := none
  token : Option String := none
deriving Repr

/-- `params.configuration`: `blocking` defaults to true when absent. -/
structure AgentConfig where
  blocking : Option Bool := none
  pushNotificationConfig : Option PushConfig := none
deriving Repr

/-- The `params` object of an agent-route request. -/
structure AgentRouteParams where
  message : Option A2AMessage := none
  messages : Option (List A2AMessage) := none
  contextId : Option String := none
  taskId : Option String := none
  configuration : Option AgentConfig := none
deriving Repr

/-- A parsed agent-route request body. -/
structure AgentRouteRequest where
  jsonrpc : Option String := none
  id : Option String := none
  method : Option String := none
  params : Option AgentRouteParams := none
deriving Repr

/-- A response body of the agent route (`result: {message: ...}` of the
acknowledgement is `resultMsg`). -/
structure AgentRpcBody where
  jsonrpc : String := "2.0"
  id : Option String := none
  errorCode : Option Int := none
  result : Option TaskResult := none
  resultMsg : Option String := none
deriving Repr

/-- One `fetch(webhookUrl, {method: 'POST', ...})` call made in the
background: the target url, the `Authorization` header, and the JSON body. -/
structure WebhookPost where
  url : String
  authHeader : String
  body : AgentRpcBody
deriving Repr

/-- The observable outcome of the agent route: a direct JSON response, or an
immediate acknowledgement plus the webhook posts made in the background. -/
inductive AgentOutcome where
  | respond (status : Nat) (body : AgentRpcBody) (posts : List WebhookPost)
  | acknowledge (ack : AgentRpcBody) (posts : List WebhookPost)
deriving Repr

/-- JavaScript string interpolation of a possibly-undefined value. -/
def orUndefined : Option String → String
  | some s => s
  | none => "undefined"

/-- `requestId || null` of the agent route. -/
def echoIdAgent (req : AgentRouteRequest) : Option String :=
  if truthyStr req.id then req.id else none

/-- The message list of the agent route (no invalid-params error here: an
absent list is just empty). -/
def agentMsgsList (prm : AgentRouteParams) : List A2AMessage :=
  match prm.message with
  | some m => [m]
  | none => prm.messages.getD []

/-- The history built by `getAgentResponse` (`a2aAgentRoute.ts` lines
103-118): incoming messages (ids defaulted) then the agent reply. -/
def agentHistoryMsgs (msgs : List A2AMessage) (taskId? : Option String)
    (agentText uuid : String) : List HistMsg :=
  msgs.map (fun msg =>
    { kind := "message", role := msg.role, parts := msg.parts,
      messageId := orTruthy msg.messageId uuid,
      taskId := orTruthy msg.taskId (orTruthy taskId? uuid),
      timestamp := none }) ++
  [{ kind := "message", role := "agent", parts := some [MsgPart.text agentText],
     messageId := uuid, taskId := orTruthy taskId? uuid, timestamp := none }]

/-- The full JSON-RPC result object `getAgentResponse` resolves to
(lines 87-137). -/
def getAgentResponseBody (requestId : Option String) (agentId : String)
    (prm : AgentRouteParams) (resp : AgentResp) (uuid : String) : AgentRpcBody :=
  let agentText := orTruthy resp.text ""
  { jsonrpc := "2.0", id := requestId,
    result := some {
      id := orTruthy prm.taskId uuid,
      contextId := orTruthy prm.contextId uuid,
      statusState := "completed",
      statusMessageText := some agentText,
      artifacts :=
        [{ artifactId := uuid, name := agentId ++ "Response",
           parts := [MsgPart.text agentText] }]
        ++ (if resp.toolResults.isEmpty then []
            else [{ artifactId := uuid, name := "ToolResults",
                    parts := resp.toolResults.map MsgPart.data }]),
      history := agentHistoryMsgs (agentMsgsList prm) prm.taskId agentText uuid } }

/-- The immediate `Accepted for processing` acknowledgement body. -/
def ackBody (req : AgentRouteRequest) : AgentRpcBody :=
  { jsonrpc := "2.0", id := req.id, resultMsg := some "Accepted for processing" }

/-- The agent route handler (`a2aAgendRoute.ts` lines 14-211): validation,
then the blocking / non-blocking branch; in the non-blocking branch the
background task posts the success result, or a -32000 error object carrying
the same request id, to the webhook — and posts nothing without a url. -/
def a2aAgentHandler (knownAgents : List String) (agentId : String)
    (req : AgentRouteRequest) (gen : Except String AgentResp)
    (uuid : String) : AgentOutcome :=
  if !(req.jsonrpc == some "2.0") || !truthyStr req.id then
    .respond 400 { jsonrpc := "2.0", id := echoIdAgent req, errorCode := some (-32600) } []
  else if !(knownAgents.contains agentId) then
    .respond 404 { jsonrpc := "2.0", id := req.id, errorCode := some (-32602) } []
  else
    let prm := req.params.getD {}
    let cfg := prm.configuration.getD {}
    let push := cfg.pushNotificationConfig
    if cfg.blocking.getD true then
      match gen with
      | .ok resp => .respond 200 (getAgentResponseBody req.id agentId prm resp uuid) []
      | .error _ =>
        .respond 500 { jsonrpc := "2.0", id := req.id, errorCode := some (-32603) } []
    else
      let url? := push.bind (·.url)
      if truthyStr url? then
        let auth := "Bearer " ++ orUndefined (push.bind (·.token))
        match gen with
        | .ok resp =>
          .acknowledge (ackBody req)
            [{ url := url?.getD "", authHeader := auth,
               body := getAgentResponseBody req.id agentId prm resp uuid }]
        | .error _ =>
          .acknowledge (ackBody req)
            [{ url := url?.getD "", authHeader := auth,
               body := { jsonrpc := "2.0", id := req.id, errorCode := some (-32000) } }]
      else
        .acknowledge (ackBody req) []

/-- C7: on a valid request for a known agent, with `configuration.blocking`
false the outcome is an immediate acknowledgement and the background task
POSTs to `pushNotificationConfig.url` with the Bearer token: the full
JSON-RPC result on success, or a -32000 error object carrying the same
request id on failure; with no webhook url nothing is posted; with blocking
true (or configuration absent) the result is returned directly and no
webhook call is made. -/
theorem a2aAgent_blocking_webhook :
    ∀ (knownAgents : List String) (agentId : String) (req : AgentRouteRequest)
      (gen : Except String AgentResp) (uuid : String) (prm : AgentRouteParams)
      (cfg : AgentConfig),
      req.jsonrpc = some "2.0" → truthyStr req.id = true →
      knownAgents.contains agentId = true →
      req.params.getD {} = prm → prm.configuration.getD {} = cfg →
      ((cfg.blocking.getD true = true →
          (∀ resp, gen = .ok resp →
            a2aAgentHandler knownAgents agentId req gen uuid
              = .respond 200 (getAgentResponseBody req.id agentId prm resp uuid) [])
          ∧ (∀ e, gen = .error e →
            a2aAgentHandler knownAgents agentId req gen uuid
              = .respond 500 { jsonrpc := "2.0", id := req.id,
                               errorCode := some (-32603) } []))
      ∧ (cfg.blocking.getD true = false →
          (truthyStr (cfg.pushNotificationConfig.bind (·.url)) = false →
            a2aAgentHandler knownAgents agentId req gen uuid
              = .acknowledge (ackBody req) [])
          ∧ (∀ u : String, cfg.pushNotificationConfig.bind (·.url) = some u →
             u.isEmpty = false →
             (∀ resp, gen = .ok resp →
               a2aAgentHandler knownAgents agentId req gen uuid
                 = .acknowledge (ackBody req)
                     [{ url := u,
                        authHeader := "Bearer "
                          ++ orUndefined (cfg.pushNotificationConfig.bind (·.token)),
                        body := getAgentResponseBody req.id agentId prm resp uuid }])
             ∧ (∀ e, gen = .error e →
               a2aAgentHandler knownAgents agentId req gen uuid
                 = .acknowledge (ackBody req)
                     [{ url := u,
                        authHeader := "Bearer "
                          ++ orUndefined (cfg.pushNotificationConfig.bind (·.token)),
                        body := { jsonrpc := "2.0", id := req.id,
                                  errorCode := some (-32000) } }])))) := by
  intro knownAgents agentId req gen uuid prm cfg hj hid hag hprm hcfg
  have hag' : agentId ∈ knownAgents := by simpa using hag
  constructor
  · intro hb
    constructor
    · intro resp hgen
      simp [a2aAgentHandler, hj, hid, hag', hprm, hcfg, hb, hgen]
    · intro e hgen
      simp [a2aAgentHandler, hj, hid, hag', hprm, hcfg, hb, hgen]
  · intro hb
    constructor
    · intro hurl
      simp [a2aAgentHandler, hj, hid, hag', hprm, hcfg, hb, hurl]
    · intro u hu hne
      have hurl : truthyStr (cfg.pushNotificationConfig.bind (·.url)) = true := by
        simp [truthyStr, hu, hne]
      have hnu : truthyStr (some u) = true := by simp [truthyStr, hne]
      constructor
      · intro resp hgen
        simp [a2aAgentHandler, hj, hid, hag', hprm, hcfg, hb, hgen, hu, hnu]
      · intro e hgen
        simp [a2aAgentHandler, hj, hid, hag', hprm, hcfg, hb, hgen, hu, hnu]

def pushCfgFull : PushConfig := { url := some "https://hook.example/x", token := some "tok" }

def agentCfgNB : AgentConfig :=
  { blocking := some false, pushNotificationConfig := some pushCfgFull }

def agentCfgNBNoUrl : AgentConfig := { blocking := some false }

def agentPrmBlocking : AgentRouteParams := { message := some histMsg1 }

def agentPrmNB : AgentRouteParams :=
  { message := some histMsg1, configuration := some agentCfgNB }

def agentPrmNBNoUrl : AgentRouteParams :=
  { message := some histMsg1, configuration := some agentCfgNBNoUrl }

def agentReqBlocking : AgentRouteRequest :=
  { jsonrpc := some "2.0", id := some "5", params := some agentPrmBlocking }

def agentReqNB : AgentRouteRequest :=
  { jsonrpc := some "2.0", id := some "5", params := some agentPrmNB }

def agentReqNBNoUrl : AgentRouteRequest :=
  { jsonrpc := some "2.0", id := some "5", params := some agentPrmNBNoUrl }

theorem a2aAgent_blocking_webhook_witness :
    (a2aAgentHandler ["potteryAgent"] "potteryAgent" agentReqBlocking (.ok {}) "u"
       = .respond 200
           (getAgentResponseBody agentReqBlocking.id "potteryAgent" agentPrmBlocking {} "u") [])
    ∧ (a2aAgentHandler ["potteryAgent"] "potteryAgent" agentReqNBNoUrl (.ok {}) "u"
       = .acknowledge (ackBody agentReqNBNoUrl) [])
    ∧ (a2aAgentHandler ["potteryAgent"] "potteryAgent" agentReqNB (.ok {}) "u"
       = .acknowledge (ackBody agentReqNB)
           [{ url := "https://hook.example/x",
              authHeader := "Bearer "
                ++ orUndefined (agentCfgNB.pushNotificationConfig.bind (·.token)),
              body := getAgentResponseBody agentReqNB.id "potteryAgent" agentPrmNB {} "u" }])
    ∧ (a2aAgentHandler ["potteryAgent"] "potteryAgent" agentReqNB (.error "boom") "u"
       = .acknowledge (ackBody agentReqNB)
           [{ url := "https://hook.example/x",
              authHeader := "Bearer "
                ++ orUndefined (agentCfgNB.pushNotificationConfig.bind (·.token)),
              body := { jsonrpc := "2.0", id := agentReqNB.id,
                        errorCode := some (-32000) } }]) :=
  ⟨((a2aAgent_blocking_webhook ["potteryAgent"] "potteryAgent" agentReqBlocking
      (.ok {}) "u" agentPrmBlocking {} rfl (by decide) (by decide) rfl rfl).1 rfl).1 {} rfl,
   ((a2aAgent_blocking_webhook ["potteryAgent"] "potteryAgent" agentReqNBNoUrl
      (.ok {}) "u" agentPrmNBNoUrl agentCfgNBNoUrl rfl (by decide) (by decide) rfl rfl).2
      rfl).1 rfl,
   (((a2aAgent_blocking_webhook ["potteryAgent"] "potteryAgent" agentReqNB
      (.ok {}) "u" agentPrmNB agentCfgNB rfl (by decide) (by decide) rfl rfl).2
      rfl).2 "https://hook.example/x" rfl (by decide)).1 {} rfl,
   (((a2aAgent_blocking_webhook ["potteryAgent"] "potteryAgent" agentReqNB
      (.error "boom") "u" agentPrmNB agentCfgNB rfl (by decide) (by decide) rfl rfl).2
      rfl).2 "https://hook.example/x" rfl (by decide)).2 "boom" rfl⟩
